import Mathlib

/-!
Shallow embedding of the shiprocket → triple-whale integration service
(files src/webhooks/shiprocket-handler.js and src/utils/retry.js),
over which the spec's claims are stated and settled.

Strings are modelled as `List Char`, JavaScript numbers as the type `JNum`
(a rational or NaN; the binary floating-point representation is immaterial
to the claims, which involve only small decimal values), and JavaScript
field values as `JField` (a string or a number).  Fallible library calls
(`crypto.timingSafeEqual`) return `Except`.
-/

/-- A JavaScript number: either NaN or a (finite) numeric value. -/
inductive JNum where
  | nan : JNum
  | val (q : ℚ) : JNum
deriving DecidableEq

/-- A JavaScript field value as it appears in webhook JSON: a string or a number. -/
inductive JField where
  | s (cs : List Char) : JField
  | n (q : ℚ) : JField
deriving DecidableEq

/-- JavaScript comparison `a > c` for a number `a` against a constant:
false when `a` is NaN. -/
def JNum.gtC : JNum → ℚ → Bool
  | .nan, _ => false
  | .val q, c => decide (c < q)

/-- JavaScript comparison `a >= b`: false when either side is NaN. -/
def JNum.geJ : JNum → JNum → Bool
  | .nan, _ => false
  | _, .nan => false
  | .val a, .val b => decide (b ≤ a)

/-- JavaScript comparison `a < b`: false when either side is NaN. -/
def JNum.ltJ : JNum → JNum → Bool
  | .nan, _ => false
  | _, .nan => false
  | .val a, .val b => decide (a < b)

/-- JavaScript strict equality `a === 0`: false when `a` is NaN. -/
def JNum.eqZ : JNum → Bool
  | .nan => false
  | .val q => decide (q = 0)

/-- JavaScript subtraction: NaN-propagating. -/
def JNum.subJ : JNum → JNum → JNum
  | .val a, .val b => .val (a - b)
  | _, _ => .nan

/-- JavaScript division: NaN-propagating (division by zero does not occur
at this program's call sites with nonzero literal divisors). -/
def JNum.divC : JNum → ℚ → JNum
  | .val a, c => .val (a / c)
  | .nan, _ => .nan

/-- Whitespace characters skipped by `parseFloat`. -/
def isSpaceJS (c : Char) : Bool :=
  c = ' ' ∨ c = '\t' ∨ c = '\n' ∨ c = '\r'

/-- Decimal digit value of a character, if it is a digit. -/
def digitVal (c : Char) : Option ℕ :=
  if '0' ≤ c ∧ c ≤ '9' then some (c.toNat - ('0').toNat) else none

/-- Take a maximal run of decimal digits from the front of the list,
returning their values and the rest. -/
def takeDigits : List Char → List ℕ × List Char
  | [] => ([], [])
  | c :: cs =>
    match digitVal c with
    | some d => let (ds, rest) := takeDigits cs; (d :: ds, rest)
    | none => ([], c :: cs)

/-- Natural value of a digit-value list read most-significant first. -/
def digitsVal (ds : List ℕ) : ℕ := ds.foldl (fun a d => a * 10 + d) 0

/-- Iterated multiplication on `ℚ` by structural recursion (the library's
power operator does not evaluate, which these definitions need to). -/
def qpowN (q : ℚ) : ℕ → ℚ
  | 0 => 1
  | n + 1 => q * qpowN q n

/-- `10^e` on `ℚ` for a signed exponent. -/
def tenPowZ (e : ℤ) : ℚ :=
  if 0 ≤ e then qpowN 10 e.toNat else 1 / qpowN 10 (-e).toNat

/-- Parse an unsigned decimal `digits ('.' digits)?` prefix, returning the
integer-part value, the fraction-digit values and the rest; `none` when no
digit is present at all (JavaScript `parseFloat` then yields NaN). -/
def parseUnsigned (cs : List Char) : Option ((ℕ × List ℕ) × List Char) :=
  let p := takeDigits cs
  match p.2 with
  | '.' :: rest2 =>
    let pf := takeDigits rest2
    if p.1 = [] ∧ pf.1 = [] then none
    else some ((digitsVal p.1, pf.1), pf.2)
  | _ => if p.1 = [] then none else some ((digitsVal p.1, []), p.2)

/-- Parse a trailing exponent part `[eE][+-]?digits`, returning the signed
exponent (0 when absent or when no digits follow the `e`, as `parseFloat`
stops consuming there). -/
def parseExp : List Char → ℤ
  | c :: rest =>
    if c = 'e' ∨ c = 'E' then
      let p : ℤ × List Char :=
        match rest with
        | '-' :: r2 => (-1, r2)
        | '+' :: r2 => (1, r2)
        | _ => (1, rest)
      let pd := takeDigits p.2
      if pd.1 = [] then 0 else p.1 * (digitsVal pd.1 : ℤ)
    else 0
  | [] => 0

/-- Combine sign, integer part, fraction digits and exponent into the
parsed value `±(ip + frac/10^k) * 10^e`.  The integer-only case is kept
free of field arithmetic so that it evaluates. -/
def composeParsed (neg : Bool) (ip : ℕ) (fds : List ℕ) (e : ℤ) : ℚ :=
  let base : ℚ :=
    if fds = [] then (ip : ℚ)
    else (ip : ℚ) + (digitsVal fds : ℚ) / qpowN 10 fds.length
  let scaled := if e = 0 then base else base * tenPowZ e
  if neg then -scaled else scaled

/-- JavaScript `parseFloat` on a string: skip whitespace, optional sign,
longest decimal-number prefix with optional exponent; NaN when no number
can be parsed.  (The `Infinity` literal form is not used by this program's
inputs and is not modelled.) -/
def parseFloatStr (cs : List Char) : JNum :=
  let cs1 := cs.dropWhile isSpaceJS
  let sp : Bool × List Char :=
    match cs1 with
    | '-' :: r => (true, r)
    | '+' :: r => (false, r)
    | _ => (false, cs1)
  match parseUnsigned sp.2 with
  | none => .nan
  | some ((ip, fds), rest) => .val (composeParsed sp.1 ip fds (parseExp rest))

/-- JavaScript truthiness filter on an optional field: `undefined`, the
empty string and the number 0 are falsy. -/
def truthyField : Option JField → Option JField
  | some (.s cs) => if cs = [] then none else some (.s cs)
  | some (.n q) => if q = 0 then none else some (.n q)
  | none => none

/-- `parseFloat` applied to a field value (absent means the literal `0`
supplied by the source's `|| 0`). -/
def parseFloatF : Option JField → JNum
  | none => .val 0
  | some (.s cs) => parseFloatStr cs
  | some (.n q) => .val q

/-- `parseFloat(x || 0)` for a single optional field. -/
def parseMoney (f : Option JField) : JNum := parseFloatF (truthyField f)

/-- `parseFloat(a || b || 0)` for a pair of alternative fields. -/
def parseMoney2 (a b : Option JField) : JNum :=
  parseFloatF (match truthyField a with | some v => some v | none => truthyField b)

/-- JavaScript `x || dflt` for optional strings (empty string is falsy). -/
def strOr (o : Option (List Char)) (dflt : List Char) : List Char :=
  match o with
  | some cs => if cs = [] then dflt else cs
  | none => dflt

/-- Lower-casing of a string, as `String.prototype.toLowerCase` acts on the
ASCII inputs this program receives. -/
def toLowerList (cs : List Char) : List Char := cs.map Char.toLower

/-- Boolean test that the first list is an initial segment of the second. -/
def prefixOfB : List Char → List Char → Bool
  | x :: xs, y :: ys => decide (x = y) && prefixOfB xs ys
  | [], _ => true
  | _ :: _, [] => false

/-- `String.prototype.includes`: the needle occurs contiguously in the
haystack. -/
def infixOfB (needle : List Char) : List Char → Bool
  | [] => prefixOfB needle []
  | c :: cs => prefixOfB needle (c :: cs) || infixOfB needle cs

/-- A product entry of an order's `products` array; only `quantity` is read
by the handler. -/
structure Product where
  quantity : Option JNum
deriving DecidableEq

/-- `product.quantity || 1`: NaN, 0 and absent quantities are falsy. -/
def productQty (p : Product) : ℚ :=
  match p.quantity with
  | some (.val q) => if q = 0 then 1 else q
  | some .nan => 1
  | none => 1

/-- The webhook `data` object, with every field the handler reads.  All
fields are optional, matching the untyped JSON input. -/
structure OrderData where
  order_id : Option (List Char) := none
  shipment_id : Option (List Char) := none
  order_date : Option (List Char) := none
  order_created_date : Option (List Char) := none
  shipped_date : Option (List Char) := none
  delivered_date : Option (List Char) := none
  cancelled_date : Option (List Char) := none
  returned_date : Option (List Char) := none
  rto_date : Option (List Char) := none
  pickup_date : Option (List Char) := none
  total_amount : Option JField := none
  amount_paid : Option JField := none
  paid_amount : Option JField := none
  cod_amount : Option JField := none
  cash_on_delivery_amount : Option JField := none
  shipping_charges : Option JField := none
  return_charges : Option JField := none
  payment_method : Option (List Char) := none
  payment_mode : Option (List Char) := none
  is_cod : Option Bool := none
  channel_name : Option (List Char) := none
  courier_name : Option (List Char) := none
  cancellation_reason : Option (List Char) := none
  return_reason : Option (List Char) := none
  failure_reason : Option (List Char) := none
  event_type : Option (List Char) := none
  return_type : Option (List Char) := none
  products : Option (List Product) := none

/-- The record returned by `determinePaymentStatus`. -/
structure PaymentInfo where
  status : List Char
  isCOD : Bool
  isFullyPaid : Bool
  isPartiallyPaid : Bool
  isPrepaid : Bool
  totalAmount : JNum
  paidAmount : JNum
  codAmount : JNum
  outstandingAmount : JNum
  paymentMethod : List Char
deriving DecidableEq

/-- `determinePaymentStatus(orderData)` from src/webhooks/shiprocket-handler.js:
parses the monetary fields with `parseFloat(x || 0)`, detects COD from the
payment-method text, a positive COD amount, the `is_cod === true` flag or
`payment_mode === 'COD'`, then walks the if/else chain assigning the status
string, the booleans and the outstanding amount. -/
def determinePaymentStatus (d : OrderData) : PaymentInfo :=
  let totalAmount := parseMoney d.total_amount
  let paidAmount := parseMoney2 d.amount_paid d.paid_amount
  let codAmount := parseMoney2 d.cod_amount d.cash_on_delivery_amount
  let paymentMethod := toLowerList (strOr d.payment_method [])
  let isCOD : Bool :=
    infixOfB (("cod").data) paymentMethod ||
    infixOfB (("cash").data) paymentMethod ||
    codAmount.gtC 0 ||
    d.is_cod == some true ||
    d.payment_mode == some (("COD").data)
  let r : List Char × Bool × Bool × Bool × JNum :=
    if isCOD then
      (("COD").data, false, false, false,
        if codAmount.gtC 0 then codAmount else totalAmount)
    else if paidAmount.geJ totalAmount && totalAmount.gtC 0 then
      (("Fully_Paid").data, true, false, true, .val 0)
    else if paidAmount.gtC 0 && paidAmount.ltJ totalAmount then
      (("Partially_Paid").data, false, true, false, totalAmount.subJ paidAmount)
    else if paidAmount.eqZ && totalAmount.gtC 0 then
      (("Unpaid").data, false, false, false, totalAmount)
    else if totalAmount.eqZ then
      (("Free_Order").data, true, false, false, .val 0)
    else
      (("Unknown").data, false, false, false, .val 0)
  { status := r.1
    isCOD := isCOD
    isFullyPaid := r.2.1
    isPartiallyPaid := r.2.2.1
    isPrepaid := r.2.2.2.1
    totalAmount := totalAmount
    paidAmount := paidAmount
    codAmount := if isCOD then (if codAmount.gtC 0 then codAmount else totalAmount) else .val 0
    outstandingAmount := r.2.2.2.2
    paymentMethod := strOr d.payment_method (("Unknown").data) }

/-- A dimension value of a metric record: string, number, boolean, or the
JavaScript `undefined` passed through when a source field is absent. -/
inductive DimVal where
  | s (cs : List Char) : DimVal
  | num (v : JNum) : DimVal
  | b (v : Bool) : DimVal
  | undefinedVal : DimVal
deriving DecidableEq

/-- A metric record pushed to the analytics platform. -/
structure Metric where
  metric_name : List Char
  value : JNum
  date : List Char
  dimensions : List (List Char × DimVal)
deriving DecidableEq

/-- Dimension value of an optional string field (absent means `undefined`). -/
def dimStr (o : Option (List Char)) : DimVal :=
  match o with
  | some cs => .s cs
  | none => .undefinedVal

/-- `s.split('T')[0]`. -/
def splitDateT (s : List Char) : List Char := s.takeWhile (fun c => c ≠ 'T')

/-- `dateField ? dateField.split('T')[0] : today` (today stands for
`new Date().toISOString().split('T')[0]`). -/
def dateOrToday (o : Option (List Char)) (today : List Char) : List Char :=
  match o with
  | some s => if s = [] then today else splitDateT s
  | none => today

/-- Truthiness filter for an optional string. -/
def strTruthy (o : Option (List Char)) : Option (List Char) :=
  match o with
  | some s => if s = [] then none else some s
  | none => none

/-- Sum of `product.quantity || 1` over a products array. -/
def sumQty (ps : List Product) : ℚ := ps.foldl (fun s p => s + productQty p) 0

/-- `processOrderCreated(data)`: order count, payment-status metric,
conditional COD / prepaid / partially-paid families, order value when
`total_amount` is truthy, and product metrics when `products` is an array.
`today` stands for the server's current date string. -/
def processOrderCreated (today : List Char) (d : OrderData) : List Metric :=
  let date := dateOrToday d.order_date today
  let ps := determinePaymentStatus d
  [{ metric_name := ("shiprocket_orders_created").data
     value := .val 1
     date := date
     dimensions :=
       [(("source").data, .s (("shiprocket").data)),
        (("event").data, .s (("order_created").data)),
        (("order_id").data, dimStr d.order_id),
        (("channel").data, .s (strOr d.channel_name (("unknown").data))),
        (("payment_method").data, .s (strOr d.payment_method (("unknown").data))),
        (("payment_status").data, .s ps.status),
        (("is_cod").data, .b ps.isCOD),
        (("is_fully_paid").data, .b ps.isFullyPaid),
        (("is_partially_paid").data, .b ps.isPartiallyPaid)] },
   { metric_name := ("shiprocket_payment_status").data
     value := .val 1
     date := date
     dimensions :=
       [(("source").data, .s (("shiprocket").data)),
        (("event").data, .s (("order_created").data)),
        (("order_id").data, dimStr d.order_id),
        (("payment_status").data, .s ps.status),
        (("payment_type").data, .s (if ps.isCOD then ("COD").data else ("Online").data))] }]
  ++ (if ps.isCOD then
      [{ metric_name := ("shiprocket_cod_orders").data
         value := .val 1
         date := date
         dimensions :=
           [(("source").data, .s (("shiprocket").data)),
            (("event").data, .s (("order_created").data)),
            (("order_id").data, dimStr d.order_id),
            (("cod_amount").data, .num ps.codAmount)] }]
      ++ (if ps.codAmount.gtC 0 then
          [{ metric_name := ("shiprocket_cod_amount").data
             value := ps.codAmount
             date := date
             dimensions :=
               [(("source").data, .s (("shiprocket").data)),
                (("event").data, .s (("order_created").data)),
                (("order_id").data, dimStr d.order_id),
                (("currency").data, .s (("INR").data))] }]
          else [])
      else [])
  ++ (if ps.isPrepaid then
      [{ metric_name := ("shiprocket_prepaid_orders").data
         value := .val 1
         date := date
         dimensions :=
           [(("source").data, .s (("shiprocket").data)),
            (("event").data, .s (("order_created").data)),
            (("order_id").data, dimStr d.order_id),
            (("prepaid_amount").data, .num ps.paidAmount)] }]
      else [])
  ++ (if ps.isPartiallyPaid then
      [{ metric_name := ("shiprocket_partially_paid_orders").data
         value := .val 1
         date := date
         dimensions :=
           [(("source").data, .s (("shiprocket").data)),
            (("event").data, .s (("order_created").data)),
            (("order_id").data, dimStr d.order_id),
            (("paid_amount").data, .num ps.paidAmount),
            (("outstanding_amount").data, .num ps.outstandingAmount),
            (("total_amount").data, .num ps.totalAmount)] },
       { metric_name := ("shiprocket_outstanding_amount").data
         value := ps.outstandingAmount
         date := date
         dimensions :=
           [(("source").data, .s (("shiprocket").data)),
            (("event").data, .s (("order_created").data)),
            (("order_id").data, dimStr d.order_id),
            (("currency").data, .s (("INR").data))] }]
      else [])
  ++ (match truthyField d.total_amount with
      | some f =>
        [{ metric_name := ("shiprocket_order_value").data
           value := parseFloatF (some f)
           date := date
           dimensions :=
             [(("source").data, .s (("shiprocket").data)),
              (("event").data, .s (("order_created").data)),
              (("order_id").data, dimStr d.order_id),
              (("channel").data, .s (strOr d.channel_name (("unknown").data))),
              (("currency").data, .s (("INR").data)),
              (("payment_status").data, .s ps.status),
              (("paid_amount").data, .num ps.paidAmount),
              (("outstanding_amount").data, .num ps.outstandingAmount)] }]
      | none => [])
  ++ (match d.products with
      | some prods =>
        [{ metric_name := ("shiprocket_products_ordered").data
           value := .val (prods.length : ℚ)
           date := date
           dimensions :=
             [(("source").data, .s (("shiprocket").data)),
              (("event").data, .s (("order_created").data)),
              (("order_id").data, dimStr d.order_id),
              (("payment_status").data, .s ps.status)] },
         { metric_name := ("shiprocket_items_ordered").data
           value := .val (sumQty prods)
           date := date
           dimensions :=
             [(("source").data, .s (("shiprocket").data)),
              (("event").data, .s (("order_created").data)),
              (("order_id").data, dimStr d.order_id),
              (("payment_status").data, .s ps.status)] }]
      | none => [])

/-- `processOrderShipped(data)`: shipment count, conditional shipping cost,
and processing-time hours when both date fields are truthy.  `dateMs`
stands for `new Date(s).getTime()` (NaN on unparsable dates). -/
def processOrderShipped (today : List Char) (dateMs : List Char → JNum) (d : OrderData) :
    List Metric :=
  let date := dateOrToday d.shipped_date today
  [{ metric_name := ("shiprocket_shipments_created").data
     value := .val 1
     date := date
     dimensions :=
       [(("source").data, .s (("shiprocket").data)),
        (("event").data, .s (("order_shipped").data)),
        (("order_id").data, dimStr d.order_id),
        (("shipment_id").data, dimStr d.shipment_id),
        (("courier").data, .s (strOr d.courier_name (("unknown").data)))] }]
  ++ (match truthyField d.shipping_charges with
      | some f =>
        [{ metric_name := ("shiprocket_shipping_cost").data
           value := parseFloatF (some f)
           date := date
           dimensions :=
             [(("source").data, .s (("shiprocket").data)),
              (("event").data, .s (("order_shipped").data)),
              (("order_id").data, dimStr d.order_id),
              (("shipment_id").data, dimStr d.shipment_id),
              (("courier").data, .s (strOr d.courier_name (("unknown").data))),
              (("currency").data, .s (("INR").data))] }]
      | none => [])
  ++ (match strTruthy d.order_created_date, strTruthy d.shipped_date with
      | some cd, some sd =>
        [{ metric_name := ("shiprocket_processing_time").data
           value := ((dateMs sd).subJ (dateMs cd)).divC 3600000
           date := date
           dimensions :=
             [(("source").data, .s (("shiprocket").data)),
              (("event").data, .s (("order_shipped").data)),
              (("order_id").data, dimStr d.order_id),
              (("unit").data, .s (("hours").data))] }]
      | _, _ => [])

/-- `processOrderDelivered(data)`: delivery success, COD collection family
when the classifier says COD, and delivery/fulfillment time metrics. -/
def processOrderDelivered (today : List Char) (dateMs : List Char → JNum) (d : OrderData) :
    List Metric :=
  let date := dateOrToday d.delivered_date today
  let ps := determinePaymentStatus d
  [{ metric_name := ("shiprocket_deliveries_successful").data
     value := .val 1
     date := date
     dimensions :=
       [(("source").data, .s (("shiprocket").data)),
        (("event").data, .s (("order_delivered").data)),
        (("order_id").data, dimStr d.order_id),
        (("shipment_id").data, dimStr d.shipment_id),
        (("courier").data, .s (strOr d.courier_name (("unknown").data))),
        (("payment_status").data, .s ps.status),
        (("was_cod").data, .b ps.isCOD)] }]
  ++ (if ps.isCOD then
      [{ metric_name := ("shiprocket_cod_collected").data
         value := .val 1
         date := date
         dimensions :=
           [(("source").data, .s (("shiprocket").data)),
            (("event").data, .s (("cod_collected").data)),
            (("order_id").data, dimStr d.order_id),
            (("shipment_id").data, dimStr d.shipment_id),
            (("collection_status").data, .s (("collected").data))] }]
      ++ (if ps.codAmount.gtC 0 then
          [{ metric_name := ("shiprocket_cod_collection_amount").data
             value := ps.codAmount
             date := date
             dimensions :=
               [(("source").data, .s (("shiprocket").data)),
                (("event").data, .s (("cod_collected").data)),
                (("order_id").data, dimStr d.order_id),
                (("currency").data, .s (("INR").data)),
                (("collection_method").data, .s (("delivery").data))] }]
          else [])
      ++ [{ metric_name := ("shiprocket_payment_status_updated").data
            value := .val 1
            date := date
            dimensions :=
              [(("source").data, .s (("shiprocket").data)),
               (("event").data, .s (("payment_collected").data)),
               (("order_id").data, dimStr d.order_id),
               (("previous_status").data, .s (("COD").data)),
               (("new_status").data, .s (("Fully_Paid").data)),
               (("collection_method").data, .s (("COD_Delivery").data))] }]
      else [])
  ++ (match strTruthy d.shipped_date, strTruthy d.delivered_date with
      | some sd, some dd =>
        [{ metric_name := ("shiprocket_delivery_time").data
           value := ((dateMs dd).subJ (dateMs sd)).divC 3600000
           date := date
           dimensions :=
             [(("source").data, .s (("shiprocket").data)),
              (("event").data, .s (("order_delivered").data)),
              (("order_id").data, dimStr d.order_id),
              (("courier").data, .s (strOr d.courier_name (("unknown").data))),
              (("unit").data, .s (("hours").data)),
              (("payment_type").data,
                .s (if ps.isCOD then ("COD").data else ("Prepaid").data))] }]
      | _, _ => [])
  ++ (match strTruthy d.order_created_date, strTruthy d.delivered_date with
      | some cd, some dd =>
        [{ metric_name := ("shiprocket_fulfillment_time").data
           value := ((dateMs dd).subJ (dateMs cd)).divC 3600000
           date := date
           dimensions :=
             [(("source").data, .s (("shiprocket").data)),
              (("event").data, .s (("order_delivered").data)),
              (("order_id").data, dimStr d.order_id),
              (("unit").data, .s (("hours").data)),
              (("payment_type").data,
                .s (if ps.isCOD then ("COD").data else ("Prepaid").data))] }]
      | _, _ => [])

/-- `processOrderCancelled(data)`: cancellation count and conditional
lost-revenue metric. -/
def processOrderCancelled (today : List Char) (d : OrderData) : List Metric :=
  let date := dateOrToday d.cancelled_date today
  [{ metric_name := ("shiprocket_orders_cancelled").data
     value := .val 1
     date := date
     dimensions :=
       [(("source").data, .s (("shiprocket").data)),
        (("event").data, .s (("order_cancelled").data)),
        (("order_id").data, dimStr d.order_id),
        (("reason").data, .s (strOr d.cancellation_reason (("unknown").data)))] }]
  ++ (match truthyField d.total_amount with
      | some f =>
        [{ metric_name := ("shiprocket_revenue_lost").data
           value := parseFloatF (some f)
           date := date
           dimensions :=
             [(("source").data, .s (("shiprocket").data)),
              (("event").data, .s (("order_cancelled").data)),
              (("order_id").data, dimStr d.order_id),
              (("currency").data, .s (("INR").data))] }]
      | none => [])

/-- `processOrderReturned(data)`: return/RTO count, failed-COD-collection
family for RTO COD orders, and conditional return-cost metric. -/
def processOrderReturned (today : List Char) (d : OrderData) : List Metric :=
  let date :=
    match
      (match strTruthy d.returned_date with
       | some s => some s
       | none => strTruthy d.rto_date) with
    | some s => splitDateT s
    | none => today
  let isRTO : Bool :=
    d.event_type == some (("rto").data) || d.return_type == some (("rto").data)
  let ps := determinePaymentStatus d
  [{ metric_name :=
       if isRTO then ("shiprocket_rto_orders").data else ("shiprocket_returns").data
     value := .val 1
     date := date
     dimensions :=
       [(("source").data, .s (("shiprocket").data)),
        (("event").data, .s (if isRTO then ("rto").data else ("return").data)),
        (("order_id").data, dimStr d.order_id),
        (("shipment_id").data, dimStr d.shipment_id),
        (("reason").data, .s (strOr d.return_reason (("unknown").data))),
        (("payment_status").data, .s ps.status),
        (("was_cod").data, .b ps.isCOD)] }]
  ++ (if isRTO && ps.isCOD then
      [{ metric_name := ("shiprocket_cod_collection_failed").data
         value := .val 1
         date := date
         dimensions :=
           [(("source").data, .s (("shiprocket").data)),
            (("event").data, .s (("cod_collection_failed").data)),
            (("order_id").data, dimStr d.order_id),
            (("shipment_id").data, dimStr d.shipment_id),
            (("failure_reason").data, .s (strOr d.return_reason (("rto").data))),
            (("collection_status").data, .s (("failed").data))] }]
      ++ (if ps.codAmount.gtC 0 then
          [{ metric_name := ("shiprocket_cod_collection_failed_amount").data
             value := ps.codAmount
             date := date
             dimensions :=
               [(("source").data, .s (("shiprocket").data)),
                (("event").data, .s (("cod_collection_failed").data)),
                (("order_id").data, dimStr d.order_id),
                (("currency").data, .s (("INR").data)),
                (("failure_type").data, .s (("rto").data))] }]
          else [])
      ++ [{ metric_name := ("shiprocket_payment_status_updated").data
            value := .val 1
            date := date
            dimensions :=
              [(("source").data, .s (("shiprocket").data)),
               (("event").data, .s (("payment_failed").data)),
               (("order_id").data, dimStr d.order_id),
               (("previous_status").data, .s (("COD").data)),
               (("new_status").data, .s (("Failed_Collection").data)),
               (("failure_method").data, .s (("RTO").data))] }]
      else [])
  ++ (match truthyField d.return_charges with
      | some f =>
        [{ metric_name := ("shiprocket_return_cost").data
           value := parseFloatF (some f)
           date := date
           dimensions :=
             [(("source").data, .s (("shiprocket").data)),
              (("event").data, .s (if isRTO then ("rto").data else ("return").data)),
              (("order_id").data, dimStr d.order_id),
              (("currency").data, .s (("INR").data)),
              (("payment_type").data,
                .s (if ps.isCOD then ("COD").data else ("Prepaid").data))] }]
      | none => [])

/-- `processShipmentPickup(data)`. -/
def processShipmentPickup (today : List Char) (d : OrderData) : List Metric :=
  [{ metric_name := ("shiprocket_pickups").data
     value := .val 1
     date := dateOrToday d.pickup_date today
     dimensions :=
       [(("source").data, .s (("shiprocket").data)),
        (("event").data, .s (("pickup").data)),
        (("shipment_id").data, dimStr d.shipment_id),
        (("courier").data, .s (strOr d.courier_name (("unknown").data)))] }]

/-- `processInTransit(data)`. -/
def processInTransit (today : List Char) (d : OrderData) : List Metric :=
  [{ metric_name := ("shiprocket_in_transit").data
     value := .val 1
     date := today
     dimensions :=
       [(("source").data, .s (("shiprocket").data)),
        (("event").data, .s (("in_transit").data)),
        (("shipment_id").data, dimStr d.shipment_id),
        (("order_id").data, dimStr d.order_id)] }]

/-- `processOutForDelivery(data)`. -/
def processOutForDelivery (today : List Char) (d : OrderData) : List Metric :=
  [{ metric_name := ("shiprocket_out_for_delivery").data
     value := .val 1
     date := today
     dimensions :=
       [(("source").data, .s (("shiprocket").data)),
        (("event").data, .s (("out_for_delivery").data)),
        (("shipment_id").data, dimStr d.shipment_id),
        (("order_id").data, dimStr d.order_id)] }]

/-- `processFailedDelivery(data)`. -/
def processFailedDelivery (today : List Char) (d : OrderData) : List Metric :=
  [{ metric_name := ("shiprocket_failed_deliveries").data
     value := .val 1
     date := today
     dimensions :=
       [(("source").data, .s (("shiprocket").data)),
        (("event").data, .s (("failed_delivery").data)),
        (("shipment_id").data, dimStr d.shipment_id),
        (("order_id").data, dimStr d.order_id),
        (("reason").data, .s (strOr d.failure_reason (("unknown").data)))] }]

/-- Outcome of `processWebhookEvent`: the returned object, the generated
metric list, and whether `tripleWhaleAPI.pushCustomMetrics` was called
(the source calls it exactly when `metrics.length > 0`). -/
structure ProcessResult where
  success : Bool
  reason : Option (List Char)
  metricsGenerated : Option ℕ
  deliveryCalled : Bool
  metrics : List Metric
deriving DecidableEq

/-- The `switch (eventType)` dispatch of `processWebhookEvent`: the metric
list for a recognized event type, `none` for the default branch. -/
def dispatchEvent (today : List Char) (dateMs : List Char → JNum) (eventType : List Char)
    (d : OrderData) : Option (List Metric) :=
  if eventType = ("order_created").data ∨ eventType = ("order_placed").data then
    some (processOrderCreated today d)
  else if eventType = ("order_shipped").data ∨ eventType = ("shipment_created").data then
    some (processOrderShipped today dateMs d)
  else if eventType = ("order_delivered").data ∨ eventType = ("delivered").data then
    some (processOrderDelivered today dateMs d)
  else if eventType = ("order_cancelled").data ∨ eventType = ("cancelled").data then
    some (processOrderCancelled today d)
  else if eventType = ("order_returned").data ∨ eventType = ("rto").data then
    some (processOrderReturned today d)
  else if eventType = ("shipment_pickup").data then
    some (processShipmentPickup today d)
  else if eventType = ("in_transit").data then
    some (processInTransit today d)
  else if eventType = ("out_for_delivery").data then
    some (processOutForDelivery today d)
  else if eventType = ("failed_delivery").data ∨ eventType = ("delivery_failed").data then
    some (processFailedDelivery today d)
  else
    none

/-- The event types recognized by the `switch` in `processWebhookEvent`. -/
def recognizedEventTypes : List (List Char) :=
  [("order_created").data, ("order_placed").data,
   ("order_shipped").data, ("shipment_created").data,
   ("order_delivered").data, ("delivered").data,
   ("order_cancelled").data, ("cancelled").data,
   ("order_returned").data, ("rto").data,
   ("shipment_pickup").data,
   ("in_transit").data,
   ("out_for_delivery").data,
   ("failed_delivery").data, ("delivery_failed").data]

/-- `processWebhookEvent(eventType, data)`: dispatch on the event type,
push the metrics when any were generated, and report the outcome; the
default branch returns `{ success: false, reason: 'Unknown event type' }`
without generating metrics or calling the sync client. -/
def processWebhookEvent (today : List Char) (dateMs : List Char → JNum)
    (eventType : List Char) (d : OrderData) : ProcessResult :=
  match dispatchEvent today dateMs eventType d with
  | some metrics =>
    { success := true
      reason := none
      metricsGenerated := some metrics.length
      deliveryCalled := decide (0 < metrics.length)
      metrics := metrics }
  | none =>
    { success := false
      reason := some (("Unknown event type").data)
      metricsGenerated := none
      deliveryCalled := false
      metrics := [] }

/-- An error thrown by a remote call, as `defaultShouldRetry` inspects it:
`status` models `error.response?.status`, `code` models `error.code`. -/
structure JsError where
  status : Option ℕ
  code : Option (List Char)
deriving DecidableEq

/-- The network error codes retried by `defaultShouldRetry`. -/
def retryableNetworkCodes : List (List Char) :=
  [("ECONNRESET").data, ("ENOTFOUND").data, ("ECONNREFUSED").data, ("ETIMEDOUT").data]

/-- `defaultShouldRetry(error, attempt)` from src/utils/retry.js, with
`cfgMaxAttempts` standing for the `config.retry.maxAttempts` it reads:
no retry at or past the configured maximum; among 4xx only 401/408/429
retry; all 5xx retry; listed network error codes retry; otherwise no. -/
def defaultShouldRetry (cfgMaxAttempts : ℕ) (e : JsError) (attempt : ℕ) : Bool :=
  if cfgMaxAttempts ≤ attempt then false
  else
    match e.status with
    | some s =>
      if 400 ≤ s ∧ s < 500 then decide (s = 401 ∨ s = 408 ∨ s = 429)
      else if 500 ≤ s then true
      else decide (e.code ∈ retryableNetworkCodes.map some)
    | none => decide (e.code ∈ retryableNetworkCodes.map some)

/-- The `while (attempt <= maxAttempts)` loop of `retryRequest`.  `fn` maps
the (1-indexed) attempt number to that invocation's outcome; the result
pairs the returned value or the thrown error (`Except.error none` models
the `throw lastError` with no error recorded, reachable only when the loop
never runs) with the number of times `fn` was invoked.  `fuel` bounds the
recursion; callers pass enough for the loop to run to completion. -/
def retryLoop (fn : ℕ → Except JsError α) (shouldRetry : JsError → ℕ → Bool)
    (maxAttempts : ℕ) : ℕ → ℕ → ℕ → Option JsError → Except (Option JsError) α × ℕ
  | 0, _, calls, lastError => (.error lastError, calls)
  | fuel + 1, attempt, calls, lastError =>
    if attempt ≤ maxAttempts then
      match fn attempt with
      | .ok a => (.ok a, calls + 1)
      | .error e =>
        if ¬ shouldRetry e attempt then (.error (some e), calls + 1)
        else if maxAttempts ≤ attempt then (.error (some e), calls + 1)
        else retryLoop fn shouldRetry maxAttempts fuel (attempt + 1) (calls + 1) (some e)
    else (.error lastError, calls)

/-- `retryRequest(fn, { maxAttempts, shouldRetry })`: run the retry loop
from attempt 1. -/
def retryRequest (fn : ℕ → Except JsError α) (shouldRetry : JsError → ℕ → Bool)
    (maxAttempts : ℕ) : Except (Option JsError) α × ℕ :=
  retryLoop fn shouldRetry maxAttempts (maxAttempts + 1) 1 0 none

/-- The backoff delay computed before the retry that follows attempt
`attempt`: `delayMs * Math.pow(backoffFactor, attempt - 1)`. -/
def delayFor (delayMs backoffFactor : ℚ) (attempt : ℕ) : ℚ :=
  delayMs * backoffFactor ^ (attempt - 1)

/-- `addJitter(delay)` with the value of `Math.random()` made explicit:
`Math.floor(delay + r * 0.1 * delay)`. -/
def addJitter (delay r : ℚ) : ℤ := ⌊delay + r * (1 / 10) * delay⌋

/-- The jittered delay slept after a failed attempt `attempt`. -/
def jitteredDelay (delayMs backoffFactor : ℚ) (attempt : ℕ) (r : ℚ) : ℤ :=
  addJitter (delayFor delayMs backoffFactor attempt) r

/-- Circuit breaker states. -/
inductive BState where
  | CLOSED : BState
  | OPEN : BState
  | HALF_OPEN : BState
deriving DecidableEq

/-- The `CircuitBreaker` instance state (timestamps in milliseconds). -/
structure Breaker where
  failureThreshold : ℕ
  resetTimeout : ℤ
  state : BState
  failureCount : ℕ
  successCount : ℕ
  lastFailureTime : Option ℤ
deriving DecidableEq

/-- The `CircuitBreaker` constructor: `options.failureThreshold || 5` and
`options.resetTimeout || 60000`, starting CLOSED with zero counters. -/
def mkBreaker (ft : Option ℕ) (rt : Option ℤ) : Breaker :=
  { failureThreshold := match ft with | some n => if n = 0 then 5 else n | none => 5
    resetTimeout := match rt with | some t => if t = 0 then 60000 else t | none => 60000
    state := .CLOSED
    failureCount := 0
    successCount := 0
    lastFailureTime := none }

/-- `onSuccess()`: reset the failure count, bump the success count, and
close the breaker when it was HALF_OPEN. -/
def Breaker.onSuccessB (b : Breaker) : Breaker :=
  { b with
    failureCount := 0
    successCount := b.successCount + 1
    state := if b.state = .HALF_OPEN then .CLOSED else b.state }

/-- `onFailure()`: bump the failure count, record the failure time, and
open the breaker when the count reaches the threshold. -/
def Breaker.onFailureB (b : Breaker) (now : ℤ) : Breaker :=
  { b with
    failureCount := b.failureCount + 1
    lastFailureTime := some now
    state := if b.failureThreshold ≤ b.failureCount + 1 then .OPEN else b.state }

/-- The OPEN-state gate at the top of `execute`: `none` models the thrown
"Circuit breaker is OPEN" error, `some b` the state in which the wrapped
call proceeds (HALF_OPEN with the failure count reset when the reset
timeout has elapsed; a null `lastFailureTime` coerces to 0 as in the
source's subtraction). -/
def Breaker.checkGate (b : Breaker) (now : ℤ) : Option Breaker :=
  if b.state = .OPEN then
    if b.resetTimeout < now - b.lastFailureTime.getD 0 then
      some { b with state := .HALF_OPEN, failureCount := 0 }
    else none
  else some b

/-- Observable outcome of one `execute` call. -/
inductive ExecOutcome where
  | blocked : ExecOutcome
  | ok : ExecOutcome
  | err : ExecOutcome
deriving DecidableEq

/-- `execute(fn)` at time `now`, with `callSucceeds` the outcome the
wrapped function would have if invoked: blocked requests leave the state
unchanged and never invoke the function. -/
def Breaker.execute (b : Breaker) (now : ℤ) (callSucceeds : Bool) :
    ExecOutcome × Breaker :=
  match b.checkGate now with
  | none => (.blocked, b)
  | some b1 => if callSucceeds then (.ok, b1.onSuccessB) else (.err, b1.onFailureB now)

/-- A sequence of failing calls at the given times. -/
def runFailures (b : Breaker) (ts : List ℤ) : Breaker :=
  ts.foldl (fun s t => (s.execute t false).2) b

/-- The sixteen lowercase hex digit characters in value order. -/
def hexChars : List Char := ("0123456789abcdef").data

/-- Lowercase hex digit for a nibble value (the default is never reached at
call sites, where values are below 16). -/
def hexDigit (n : ℕ) : Char := hexChars.getD n ('0')

/-- Value of a hex digit character, accepting both cases as Buffer decoding
does; `none` for a non-hex character. -/
def hexVal (c : Char) : Option ℕ :=
  match hexChars.indexOf? c with
  | some i => some i
  | none =>
    match (("ABCDEF").data).indexOf? c with
    | some i => some (i + 10)
    | none => none

/-- `.digest('hex')`: lowercase hex encoding of a byte list. -/
def hexEncode : List ℕ → List Char
  | [] => []
  | b :: bs => hexDigit (b / 16) :: hexDigit (b % 16) :: hexEncode bs

/-- `Buffer.from(s, 'hex')`: decode hex pairs, stopping at the first
invalid or incomplete pair as Node does. -/
def hexDecode : List Char → List ℕ
  | c1 :: c2 :: rest =>
    match hexVal c1, hexVal c2 with
    | some hi, some lo => (hi * 16 + lo) :: hexDecode rest
    | _, _ => []
  | _ => []

/-- `String.prototype.replace(pat, '')` with a string pattern: remove the
first occurrence of `pat`, leaving the string unchanged when it does not
occur. -/
def removeFirst (pat : List Char) : List Char → List Char
  | [] => []
  | c :: cs =>
    if prefixOfB pat (c :: cs) then (c :: cs).drop pat.length
    else c :: removeFirst pat cs

/-- `crypto.timingSafeEqual`: throws when the buffers differ in length,
otherwise reports byte equality. -/
def timingSafeEqual (a b : List ℕ) : Except (List Char) Bool :=
  if a.length = b.length then .ok (a == b)
  else .error (("Input buffers must have the same length").data)

/-- `verifyWebhookSignature(payload, signature, secret)`, with
`verifyCfg` standing for `config.webhook.verifySignature` and `hmacHex`
for the byte output of `crypto.createHmac('sha256', secret).update(payload)`
(HMAC-SHA256 itself is kept abstract in this model): compare the hex-decoded
expected digest against the hex-decoded received signature, the
`sha256=` prefix stripped, using `timingSafeEqual`. -/
def verifyWebhookSignature (verifyCfg : Bool) (hmacHex : List Char → List Char → List ℕ)
    (payload signature secret : List Char) : Except (List Char) Bool :=
  if verifyCfg = false then .ok true
  else
    let expectedSignature := hexEncode (hmacHex secret payload)
    let receivedSignature := removeFirst (("sha256=").data) signature
    timingSafeEqual (hexDecode expectedSignature) (hexDecode receivedSignature)

/-- Flip bit `k` of the byte at index `i` of a MAC byte list. -/
def flipBit (l : List ℕ) (i k : ℕ) : List ℕ :=
  l.set i ((l.getD i 0) ^^^ 2 ^ k)

/-- The parsed JSON body of a webhook request: the fields the endpoint
reads (`timestamp`/`webhook_id` are passed through unexamined). -/
structure WebhookBody where
  event_type : Option (List Char)
  data : Option OrderData

/-- `validateWebhookData(req.body)` (src/utils/validators.js): the Joi
`webhookSchema` requires `event_type` (a string) and `data` (an object);
the event-specific schemas then require `order_id` for order events and
`shipment_id` for shipment events, everything else being optional and
unknown keys allowed. -/
def validateWebhookData (b : WebhookBody) : Bool :=
  match b.event_type, b.data with
  | some et, some d =>
    if et = ("order_created").data ∨ et = ("order_placed").data ∨
       et = ("order_cancelled").data ∨ et = ("order_delivered").data then
      d.order_id.isSome
    else if et = ("order_shipped").data ∨ et = ("shipment_created").data ∨
       et = ("in_transit").data ∨ et = ("out_for_delivery").data ∨
       et = ("failed_delivery").data then
      d.shipment_id.isSome
    else true
  | _, _ => false

/-- The HTTP response of the `POST /shiprocket` route. -/
inductive RouteResponse where
  | unauthorized : RouteResponse
  | badRequest : RouteResponse
  | okSuccess (metricsGenerated : Option ℕ) : RouteResponse
  | okFailure : RouteResponse
deriving DecidableEq

/-- The part of the route after the signature check: structural validation
(400 on failure) followed by `processWebhookEvent` and the 200 response
carrying `result.metricsGenerated`. -/
def routeAfterVerify (today : List Char) (dateMs : List Char → JNum) (body : WebhookBody) :
    RouteResponse :=
  if validateWebhookData body = false then .badRequest
  else
    match body.event_type, body.data with
    | some et, some d => .okSuccess (processWebhookEvent today dateMs et d).metricsGenerated
    | _, _ => .badRequest

/-- The `POST /shiprocket` endpoint: take the signature from the
`x-shiprocket-signature` or `authorization` header, verify it only when
verification is configured AND a header is present, then validate and
process; a verification throw is caught into the 200 failure
acknowledgment. -/
def webhookRoute (verifyCfg : Bool) (hmacHex : List Char → List Char → List ℕ)
    (secret : List Char) (stringifyBody : WebhookBody → List Char)
    (today : List Char) (dateMs : List Char → JNum)
    (sigHeader authHeader : Option (List Char)) (body : WebhookBody) : RouteResponse :=
  let signature :=
    match strTruthy sigHeader with
    | some s => some s
    | none => strTruthy authHeader
  match signature with
  | some sigv =>
    if verifyCfg then
      match verifyWebhookSignature verifyCfg hmacHex (stringifyBody body) sigv secret with
      | .ok true => routeAfterVerify today dateMs body
      | .ok false => .unauthorized
      | .error _ => .okFailure
    else routeAfterVerify today dateMs body
  | none => routeAfterVerify today dateMs body

/-- The six payment status strings. -/
def paymentStatusValues : List (List Char) :=
  [("COD").data, ("Fully_Paid").data, ("Partially_Paid").data,
   ("Unpaid").data, ("Free_Order").data, ("Unknown").data]

/-- C1: every input yields exactly one of the six statuses, `isCOD` and
`isFullyPaid` are never both true, and `isFullyPaid` implies the status is
`Fully_Paid` or `Free_Order`. -/
theorem determinePaymentStatus_invariants (d : OrderData) :
    (determinePaymentStatus d).status ∈ paymentStatusValues ∧
    ¬((determinePaymentStatus d).isCOD = true ∧
      (determinePaymentStatus d).isFullyPaid = true) ∧
    ((determinePaymentStatus d).isFullyPaid = true →
      (determinePaymentStatus d).status = ("Fully_Paid").data ∨
      (determinePaymentStatus d).status = ("Free_Order").data) := by
  unfold determinePaymentStatus
  dsimp only
  repeat' split
  all_goals simp_all [paymentStatusValues]

/-- The spec's scenario event data:
`{order_id:"A1", total_amount:"1000", payment_method:"COD", cod_amount:"1000"}`. -/
def orderDataA1 : OrderData :=
  { order_id := some (("A1").data)
    total_amount := some (.s (("1000").data))
    payment_method := some (("COD").data)
    cod_amount := some (.s (("1000").data)) }

/-- C2: on the scenario event the classifier yields status COD with
outstanding amount 1000, and the transformer yields at least 3 metrics,
one of them `shiprocket_cod_amount` with value 1000 dated today. -/
theorem orderCreated_cod_scenario (today : List Char) :
    (determinePaymentStatus orderDataA1).status = ("COD").data ∧
    (determinePaymentStatus orderDataA1).outstandingAmount = .val 1000 ∧
    3 ≤ (processOrderCreated today orderDataA1).length ∧
    ∃ m, m ∈ processOrderCreated today orderDataA1 ∧
      m.metric_name = ("shiprocket_cod_amount").data ∧
      m.value = .val 1000 ∧ m.date = today := by
  have h : processOrderCreated today orderDataA1 =
      [{ metric_name := ("shiprocket_orders_created").data
         value := .val 1
         date := today
         dimensions :=
           [(("source").data, .s (("shiprocket").data)),
            (("event").data, .s (("order_created").data)),
            (("order_id").data, .s (("A1").data)),
            (("channel").data, .s (("unknown").data)),
            (("payment_method").data, .s (("COD").data)),
            (("payment_status").data, .s (("COD").data)),
            (("is_cod").data, .b true),
            (("is_fully_paid").data, .b false),
            (("is_partially_paid").data, .b false)] },
       { metric_name := ("shiprocket_payment_status").data
         value := .val 1
         date := today
         dimensions :=
           [(("source").data, .s (("shiprocket").data)),
            (("event").data, .s (("order_created").data)),
            (("order_id").data, .s (("A1").data)),
            (("payment_status").data, .s (("COD").data)),
            (("payment_type").data, .s (("COD").data))] },
       { metric_name := ("shiprocket_cod_orders").data
         value := .val 1
         date := today
         dimensions :=
           [(("source").data, .s (("shiprocket").data)),
            (("event").data, .s (("order_created").data)),
            (("order_id").data, .s (("A1").data)),
            (("cod_amount").data, .num (.val 1000))] },
       { metric_name := ("shiprocket_cod_amount").data
         value := .val 1000
         date := today
         dimensions :=
           [(("source").data, .s (("shiprocket").data)),
            (("event").data, .s (("order_created").data)),
            (("order_id").data, .s (("A1").data)),
            (("currency").data, .s (("INR").data))] },
       { metric_name := ("shiprocket_order_value").data
         value := .val 1000
         date := today
         dimensions :=
           [(("source").data, .s (("shiprocket").data)),
            (("event").data, .s (("order_created").data)),
            (("order_id").data, .s (("A1").data)),
            (("channel").data, .s (("unknown").data)),
            (("currency").data, .s (("INR").data)),
            (("payment_status").data, .s (("COD").data)),
            (("paid_amount").data, .num (.val 0)),
            (("outstanding_amount").data, .num (.val 1000))] }] := rfl
  refine ⟨by decide, by decide, ?_, ?_⟩
  · rw [h]; simp
  · refine ⟨{ metric_name := ("shiprocket_cod_amount").data
              value := .val 1000
              date := today
              dimensions :=
                [(("source").data, .s (("shiprocket").data)),
                 (("event").data, .s (("order_created").data)),
                 (("order_id").data, .s (("A1").data)),
                 (("currency").data, .s (("INR").data))] }, ?_, rfl, rfl, rfl⟩
    rw [h]
    exact List.mem_cons_of_mem _ (List.mem_cons_of_mem _
      (List.mem_cons_of_mem _ (List.mem_cons_self _ _)))

/-- Order data whose `total_amount` is present but not parsable as a number. -/
def orderDataUnparsable : OrderData :=
  { total_amount := some (.s (("abc").data)) }

/-- C7 counterexample: with `total_amount = "abc"`, the parsed total is NaN
rather than 0, and the classifier reports `Unknown` where treating the
field as 0 would have reported `Free_Order`. -/
theorem determinePaymentStatus_unparsable_not_zero :
    (determinePaymentStatus orderDataUnparsable).totalAmount = .nan ∧
    (determinePaymentStatus orderDataUnparsable).totalAmount ≠ .val 0 ∧
    (determinePaymentStatus orderDataUnparsable).status = ("Unknown").data ∧
    (determinePaymentStatus { orderDataUnparsable with total_amount := none }).status =
      ("Free_Order").data := by
  decide

/-- C7 amended: absent (or falsy) monetary fields parse to 0, while a
present non-empty string field parses with `parseFloat`, which yields NaN —
not 0 — when the string is unparsable; the function is total, so it never
raises. -/
theorem determinePaymentStatus_money_defaults (d1 d2 d3 : OrderData) (cs : List Char)
    (h1 : d1.total_amount = none)
    (h2 : d2.amount_paid = none) (h2' : d2.paid_amount = none)
    (h3 : d3.total_amount = some (.s cs)) (h3' : cs ≠ []) :
    (determinePaymentStatus d1).totalAmount = .val 0 ∧
    (determinePaymentStatus d2).paidAmount = .val 0 ∧
    (determinePaymentStatus d3).totalAmount = parseFloatStr cs := by
  refine ⟨?_, ?_, ?_⟩
  · simp [determinePaymentStatus, parseMoney, truthyField, parseFloatF, h1]
  · simp [determinePaymentStatus, parseMoney2, truthyField, parseFloatF, h2, h2']
  · simp [determinePaymentStatus, parseMoney, truthyField, parseFloatF, h3, h3']

/-- C7 witness for the amended theorem at concrete inputs. -/
theorem determinePaymentStatus_money_defaults_witness :
    (determinePaymentStatus { }).totalAmount = .val 0 ∧
    (determinePaymentStatus { }).paidAmount = .val 0 ∧
    (determinePaymentStatus orderDataUnparsable).totalAmount = parseFloatStr (("abc").data) :=
  determinePaymentStatus_money_defaults { } { } orderDataUnparsable (("abc").data)
    rfl rfl rfl rfl (by decide)

/-- C5 counterexample: an unrecognized event type makes `processWebhookEvent`
return `success: false` (with reason "Unknown event type"), not a success. -/
theorem processWebhookEvent_unknown_not_success :
    (processWebhookEvent [] (fun _ => .nan) (("foo_event").data) { }).success = false ∧
    (processWebhookEvent [] (fun _ => .nan) (("foo_event").data) { }).reason =
      some (("Unknown event type").data) := by
  decide

/-- C5 amended: an unrecognized event type produces zero metrics, makes no
delivery call and does not throw, but the returned result has
`success: false` and reason "Unknown event type" (no `metricsGenerated`
field), rather than a success. -/
theorem processWebhookEvent_unknown_noop (today : List Char) (dateMs : List Char → JNum)
    (et : List Char) (d : OrderData) (h : et ∉ recognizedEventTypes) :
    processWebhookEvent today dateMs et d =
      { success := false
        reason := some (("Unknown event type").data)
        metricsGenerated := none
        deliveryCalled := false
        metrics := [] } := by
  simp only [recognizedEventTypes, List.mem_cons, List.not_mem_nil, or_false, not_or] at h
  obtain ⟨n1, n2, n3, n4, n5, n6, n7, n8, n9, n10, n11, n12, n13, n14, n15⟩ := h
  simp [processWebhookEvent, dispatchEvent, n1, n2, n3, n4, n5, n6, n7, n8, n9, n10,
    n11, n12, n13, n14, n15]

/-- C5 witness for the amended theorem at a concrete unrecognized event. -/
theorem processWebhookEvent_unknown_noop_witness :
    processWebhookEvent [] (fun _ => .nan) (("foo_event").data) { } =
      { success := false
        reason := some (("Unknown event type").data)
        metricsGenerated := none
        deliveryCalled := false
        metrics := [] } :=
  processWebhookEvent_unknown_noop [] (fun _ => .nan) (("foo_event").data) { } (by decide)

/-- C4: the code bug at the concrete failing input.  A breaker constructed
with `failureThreshold: 2, resetTimeout: 100` is driven OPEN by two
failures at time 0; at time 201 (past the reset timeout) the probe call is
let through and fails — yet the breaker stays HALF_OPEN with
`failureCount = 1` instead of returning to OPEN, because `onFailure` only
reopens once the count reaches the threshold again. -/
theorem circuitBreaker_halfOpen_failure_stays_halfOpen :
    (runFailures (mkBreaker (some 2) (some 100)) [0, 0]).state = .OPEN ∧
    ((runFailures (mkBreaker (some 2) (some 100)) [0, 0]).execute 201 false).2.state =
      .HALF_OPEN ∧
    ((runFailures (mkBreaker (some 2) (some 100)) [0, 0]).execute 201 false).2.state ≠
      .OPEN ∧
    ((runFailures (mkBreaker (some 2) (some 100)) [0, 0]).execute 201 false).2.failureCount
      = 1 := by
  decide

/-- Consecutive failures from a CLOSED breaker accumulate the failure count
and open the breaker exactly when the count reaches the threshold. -/
theorem runFailures_closed_count (ts : List ℤ) :
    ∀ b : Breaker, b.state = .CLOSED →
      b.failureCount + ts.length ≤ b.failureThreshold →
      (runFailures b ts).failureCount = b.failureCount + ts.length ∧
      (runFailures b ts).state =
        (if b.failureThreshold ≤ b.failureCount + ts.length ∧ ts ≠ [] then .OPEN
         else .CLOSED) := by
  induction ts with
  | nil =>
    intro b hs _
    simp [runFailures, hs]
  | cons t ts ih =>
    intro b hs hsum
    have hgate : b.checkGate t = some b := by
      simp [Breaker.checkGate, hs]
    have hexec : (b.execute t false).2 = b.onFailureB t := by
      simp [Breaker.execute, hgate]
    have hrun : runFailures b (t :: ts) = runFailures (b.onFailureB t) ts := by
      simp [runFailures, hexec]
    by_cases hth : b.failureThreshold ≤ b.failureCount + 1
    · have hlen : ts = [] := by
        have : b.failureCount + (t :: ts).length ≤ b.failureThreshold := hsum
        simp only [List.length_cons] at this
        have := List.length_eq_zero.mp (by omega : ts.length = 0)
        exact this
      subst hlen
      rw [hrun]
      simp [runFailures, Breaker.onFailureB, hth]
    · have hs1 : (b.onFailureB t).state = .CLOSED := by
        simp [Breaker.onFailureB, hth, hs]
      have hc1 : (b.onFailureB t).failureCount = b.failureCount + 1 := rfl
      have hth1 : (b.onFailureB t).failureThreshold = b.failureThreshold := rfl
      have hsum1 : (b.onFailureB t).failureCount + ts.length ≤
          (b.onFailureB t).failureThreshold := by
        rw [hc1, hth1]
        simp only [List.length_cons] at hsum
        omega
      obtain ⟨ihc, ihs⟩ := ih (b.onFailureB t) hs1 hsum1
      rw [hrun]
      constructor
      · rw [ihc, hc1]
        simp only [List.length_cons]
        omega
      · rw [ihs, hc1, hth1]
        rcases Decidable.em (ts = []) with he | he
        · subst he
          simp only [List.length_cons, List.length_nil]
          have h1 : ¬(b.failureThreshold ≤ b.failureCount + 1 + 0 ∧ ¬([] : List ℤ) = []) := by
            simp
          have h2 : ¬(b.failureThreshold ≤ b.failureCount + (0 + 1) ∧
              ¬(t :: ([] : List ℤ)) = []) := by
            simp only [List.cons_ne_nil, not_false_eq_true, and_true]
            omega
          rw [if_neg h1, if_neg h2]
        · simp only [List.length_cons]
          have harith : b.failureCount + 1 + ts.length = b.failureCount + (ts.length + 1) := by
            omega
          rw [harith]
          simp [he]

/-- C3: from CLOSED, `failureThreshold` consecutive failures leave the
breaker OPEN; while OPEN and strictly before the reset timeout has elapsed
since the last failure, any call is rejected with the breaker-open error
and the state untouched (the wrapped function is not invoked); once the
timeout has elapsed, the gate transitions to HALF_OPEN with the failure
count reset to 0, the triggering call is allowed through, and its success
leaves the breaker CLOSED with `failureCount = 0`. -/
theorem circuitBreaker_lifecycle
    (b : Breaker) (ts : List ℤ) (b2 : Breaker) (now2 : ℤ) (out2 : Bool)
    (b3 : Breaker) (now3 : ℤ) (out3 : Bool)
    (hbs : b.state = .CLOSED) (hbc : b.failureCount = 0)
    (hbt : 1 ≤ b.failureThreshold) (hts : ts.length = b.failureThreshold)
    (h2s : b2.state = .OPEN)
    (h2t : now2 - b2.lastFailureTime.getD 0 < b2.resetTimeout)
    (h3s : b3.state = .OPEN)
    (h3t : b3.resetTimeout < now3 - b3.lastFailureTime.getD 0) :
    (runFailures b ts).state = .OPEN ∧
    b2.execute now2 out2 = (.blocked, b2) ∧
    (∃ b1, b3.checkGate now3 = some b1 ∧ b1.state = .HALF_OPEN ∧ b1.failureCount = 0) ∧
    (b3.execute now3 out3).1 ≠ .blocked ∧
    (b3.execute now3 true).2.state = .CLOSED ∧
    (b3.execute now3 true).2.failureCount = 0 := by
  have hgate3 : b3.checkGate now3 =
      some { b3 with state := .HALF_OPEN, failureCount := 0 } := by
    simp [Breaker.checkGate, h3s, h3t]
  refine ⟨?_, ?_, ?_, ?_, ?_, ?_⟩
  · obtain ⟨_, hstate⟩ :=
      runFailures_closed_count ts b hbs (by rw [hbc, hts]; omega)
    rw [hstate, hbc]
    have hne : ts ≠ [] := by
      intro he
      rw [he] at hts
      simp at hts
      omega
    simp [hts, hne]
  · have hnot : ¬(b2.resetTimeout < now2 - b2.lastFailureTime.getD 0) := by omega
    simp [Breaker.execute, Breaker.checkGate, h2s, hnot]
  · exact ⟨_, hgate3, rfl, rfl⟩
  · cases out3 <;> simp [Breaker.execute, hgate3]
  · simp [Breaker.execute, hgate3, Breaker.onSuccessB]
  · simp [Breaker.execute, hgate3, Breaker.onSuccessB]

/-- C3 witness: the lifecycle at a concrete breaker (threshold 1 for the
opening part; an OPEN breaker with reset timeout 100 probed at times 50
and 201). -/
theorem circuitBreaker_lifecycle_witness :
    (runFailures (mkBreaker (some 1) (some 100)) [5]).state = .OPEN ∧
    Breaker.execute ⟨5, 100, .OPEN, 5, 0, some 0⟩ 50 false =
      (.blocked, ⟨5, 100, .OPEN, 5, 0, some 0⟩) ∧
    (∃ b1, Breaker.checkGate ⟨5, 100, .OPEN, 5, 0, some 0⟩ 201 = some b1 ∧
      b1.state = .HALF_OPEN ∧ b1.failureCount = 0) ∧
    (Breaker.execute ⟨5, 100, .OPEN, 5, 0, some 0⟩ 201 false).1 ≠ .blocked ∧
    (Breaker.execute ⟨5, 100, .OPEN, 5, 0, some 0⟩ 201 true).2.state = .CLOSED ∧
    (Breaker.execute ⟨5, 100, .OPEN, 5, 0, some 0⟩ 201 true).2.failureCount = 0 :=
  circuitBreaker_lifecycle (mkBreaker (some 1) (some 100)) [5]
    ⟨5, 100, .OPEN, 5, 0, some 0⟩ 50 false
    ⟨5, 100, .OPEN, 5, 0, some 0⟩ 201 false
    (by decide) (by decide) (by decide) (by decide)
    (by decide) (by decide) (by decide) (by decide)

/-- An HTTP 500 error object. -/
def err500 : JsError := { status := some 500, code := none }

/-- The default retry policy retries a 500 error on any attempt before the
configured maximum. -/
theorem defaultShouldRetry_500 (cfgMax attempt : ℕ) (h : attempt < cfgMax) :
    defaultShouldRetry cfgMax err500 attempt = true := by
  have : ¬ cfgMax ≤ attempt := by omega
  simp [defaultShouldRetry, err500, this]

/-- The retry loop, entered at any attempt within bounds against a function
that fails with a 500 on every attempt before `maxAttempts` and succeeds at
`maxAttempts`, returns the success value after invoking the function once
per remaining attempt. -/
theorem retryLoop_fail500_then_ok {α : Type} (fn : ℕ → Except JsError α)
    (maxAttempts : ℕ) (v : α)
    (hfail : ∀ n, 1 ≤ n → n < maxAttempts → fn n = .error err500)
    (hok : fn maxAttempts = .ok v) :
    ∀ (fuel attempt calls : ℕ) (le : Option JsError),
      1 ≤ attempt → attempt ≤ maxAttempts →
      maxAttempts + 1 - attempt ≤ fuel →
      retryLoop fn (defaultShouldRetry maxAttempts) maxAttempts fuel attempt calls le =
        (.ok v, calls + (maxAttempts + 1 - attempt)) := by
  intro fuel
  induction fuel with
  | zero =>
    intro attempt calls le h1 h2 h3
    omega
  | succ fuel ih =>
    intro attempt calls le h1 h2 h3
    rcases Decidable.em (attempt = maxAttempts) with he | hne
    · subst he
      rw [retryLoop]
      simp [hok, h2]
    · have hlt : attempt < maxAttempts := by omega
      rw [retryLoop]
      have hfa : fn attempt = .error err500 := hfail attempt h1 hlt
      have hsr : defaultShouldRetry maxAttempts err500 attempt = true :=
        defaultShouldRetry_500 maxAttempts attempt hlt
      have hnle : ¬ maxAttempts ≤ attempt := by omega
      have hres := ih (attempt + 1) (calls + 1) (some err500) (by omega) (by omega) (by omega)
      have harith : calls + 1 + (maxAttempts + 1 - (attempt + 1)) =
          calls + (maxAttempts + 1 - attempt) := by omega
      rw [harith] at hres
      simp [h2, hfa, hsr, hnle, hres]

/-- C8: for every `maxAttempts ≥ 1`, a function failing with an HTTP 500
on each of its first `maxAttempts - 1` invocations and succeeding on
invocation number `maxAttempts` makes `retryRequest` (under the default
retry policy configured with the same maximum) return the success value,
with the function invoked exactly `maxAttempts` times (1-indexed). -/
theorem retryRequest_fail500_then_ok {α : Type} (fn : ℕ → Except JsError α)
    (maxAttempts : ℕ) (v : α)
    (hmax : 1 ≤ maxAttempts)
    (hfail : ∀ n, 1 ≤ n → n < maxAttempts → fn n = .error err500)
    (hok : fn maxAttempts = .ok v) :
    retryRequest fn (defaultShouldRetry maxAttempts) maxAttempts = (.ok v, maxAttempts) := by
  rw [retryRequest]
  rw [retryLoop_fail500_then_ok fn maxAttempts v hfail hok (maxAttempts + 1) 1 0 none
    (by omega) hmax (by omega)]
  congr 1
  omega

/-- C8 witness: three attempts, two 500 failures then success with value 42. -/
theorem retryRequest_fail500_then_ok_witness :
    retryRequest (fun n => if n < 3 then .error err500 else .ok (42 : ℕ))
      (defaultShouldRetry 3) 3 = (.ok 42, 3) :=
  retryRequest_fail500_then_ok (fun n => if n < 3 then .error err500 else .ok (42 : ℕ))
    3 42 (by omega)
    (fun n _ h2 => by simp [h2])
    (by simp)

/-- C9 counterexample: with `baseDelay = 3`, `backoffFactor = 3/2` and the
random draw 0, the delay before attempt 3 is `Math.floor(9/2) = 4`, which
lies strictly below the claimed lower bound `baseDelay * factor^(n-1) = 9/2`. -/
theorem jitteredDelay_below_claimed_lower_bound :
    jitteredDelay 3 (3 / 2) 2 0 = 4 ∧
    ¬ (delayFor 3 (3 / 2) 2 ≤ (jitteredDelay 3 (3 / 2) 2 0 : ℚ)) ∧
    (0 : ℚ) ≤ 0 ∧ (0 : ℚ) < 1 := by
  have hd : delayFor 3 (3 / 2) 2 = 9 / 2 := by norm_num [delayFor]
  have hj : jitteredDelay 3 (3 / 2) 2 0 = ⌊(9 / 2 : ℚ)⌋ := by
    rw [jitteredDelay, hd, addJitter]
    norm_num
  have hf : ⌊(9 / 2 : ℚ)⌋ = 4 := by
    rw [Int.floor_eq_iff]
    norm_num
  refine ⟨by rw [hj, hf], ?_, by norm_num, by norm_num⟩
  rw [hj, hf, hd]
  norm_num

/-- C9 amended: because `addJitter` applies `Math.floor`, the slept delay
equals `⌊delay + r * 0.1 * delay⌋` for the random draw `r ∈ [0,1)`; it is
bounded below by `⌊delay⌋` (not by `delay` itself, which fails for
non-integer delays) and above by `1.1 * delay`. -/
theorem jitteredDelay_bounds (delayMs backoffFactor r : ℚ) (attempt : ℕ)
    (h1 : 0 ≤ delayMs) (h2 : 0 ≤ backoffFactor) (h3 : 0 ≤ r) (h4 : r < 1) :
    ⌊delayFor delayMs backoffFactor attempt⌋ ≤
      jitteredDelay delayMs backoffFactor attempt r ∧
    (jitteredDelay delayMs backoffFactor attempt r : ℚ) ≤
      11 / 10 * delayFor delayMs backoffFactor attempt := by
  unfold jitteredDelay addJitter
  have hdnn : 0 ≤ delayFor delayMs backoffFactor attempt := by
    simp only [delayFor]
    exact mul_nonneg h1 (pow_nonneg h2 _)
  set d := delayFor delayMs backoffFactor attempt with hd
  have hjnn : 0 ≤ r * (1 / 10) * d :=
    mul_nonneg (mul_nonneg h3 (by norm_num)) hdnn
  have hub : r * (1 / 10) * d ≤ 1 / 10 * d := by
    nlinarith [mul_nonneg (by linarith : (0 : ℚ) ≤ 1 - r) hdnn]
  constructor
  · exact Int.floor_mono (by linarith)
  · calc ((⌊d + r * (1 / 10) * d⌋ : ℤ) : ℚ) ≤ d + r * (1 / 10) * d := Int.floor_le _
      _ ≤ 11 / 10 * d := by linarith

/-- C9 witness for the amended bounds at concrete parameters. -/
theorem jitteredDelay_bounds_witness :
    ⌊delayFor 3 (3 / 2) 2⌋ ≤ jitteredDelay 3 (3 / 2) 2 (1 / 2) ∧
    (jitteredDelay 3 (3 / 2) 2 (1 / 2) : ℚ) ≤ 11 / 10 * delayFor 3 (3 / 2) 2 :=
  jitteredDelay_bounds 3 (3 / 2) (1 / 2) 2 (by norm_num) (by norm_num)
    (by norm_num) (by norm_num)

/-- Hex digits are never the `=` character. -/
theorem hexDigit_ne_eq (n : ℕ) : hexDigit n ≠ '=' := by
  unfold hexDigit
  rcases Decidable.em (n < 16) with h | h
  · have hsmall : ∀ m, m < 16 → hexChars.getD m ('0') ≠ '=' := by decide
    exact hsmall n h
  · have hlen : hexChars.length = 16 := by decide
    rw [List.getD_eq_getElem?_getD, List.getElem?_eq_none (by omega)]
    decide

/-- A hex-encoded digest never contains the `=` character. -/
theorem eq_not_mem_hexEncode (l : List ℕ) : ('=') ∉ hexEncode l := by
  induction l with
  | nil => simp [hexEncode]
  | cons b bs ih =>
    simp only [hexEncode, List.mem_cons, not_or]
    exact ⟨fun h => hexDigit_ne_eq _ h.symm, fun h => hexDigit_ne_eq _ h.symm, ih⟩

/-- Characters of a successful prefix all occur in the larger list. -/
theorem prefixOfB_mem (p : List Char) :
    ∀ s, prefixOfB p s = true → ∀ x ∈ p, x ∈ s := by
  induction p with
  | nil =>
    intro s _ x hx
    simp at hx
  | cons a as ih =>
    intro s hp x hx
    cases s with
    | nil => simp [prefixOfB] at hp
    | cons b bs =>
      simp only [prefixOfB, Bool.and_eq_true, decide_eq_true_eq] at hp
      rcases List.mem_cons.mp hx with rfl | hx2
      · rw [hp.1]
        exact List.mem_cons_self _ _
      · exact List.mem_cons_of_mem _ (ih bs hp.2 x hx2)

/-- Stripping the `sha256=` prefix is a no-op on strings that contain no
`=`, such as hex digests. -/
theorem removeFirst_sha_eq_self (s : List Char) (h : ('=') ∉ s) :
    removeFirst (("sha256=").data) s = s := by
  induction s with
  | nil => rfl
  | cons c cs ih =>
    have htail : ('=') ∉ cs := fun hx => h (List.mem_cons_of_mem _ hx)
    cases hpre : prefixOfB (("sha256=").data) (c :: cs) with
    | false =>
      rw [removeFirst, hpre]
      simp [ih htail]
    | true =>
      exact absurd (prefixOfB_mem _ _ hpre ('=') (by decide)) h

/-- Stripping the `sha256=` prefix from a prefixed signature leaves the
signature. -/
theorem removeFirst_sha_prefixStrip (rest : List Char) :
    removeFirst (("sha256=").data) ((("sha256=").data) ++ rest) = rest := rfl

/-- Decoding inverts encoding on each nibble. -/
theorem hexVal_hexDigit : ∀ n, n < 16 → hexVal (hexDigit n) = some n := by decide

/-- Hex decoding inverts hex encoding on byte lists. -/
theorem hexDecode_hexEncode (l : List ℕ) (h : ∀ b ∈ l, b < 256) :
    hexDecode (hexEncode l) = l := by
  induction l with
  | nil => rfl
  | cons b bs ih =>
    have hb : b < 256 := h b (List.mem_cons_self _ _)
    have h1 : b / 16 < 16 := by omega
    have h2 : b % 16 < 16 := by omega
    have htail := ih (fun x hx => h x (List.mem_cons_of_mem _ hx))
    simp [hexEncode, hexDecode, hexVal_hexDigit _ h1, hexVal_hexDigit _ h2, htail]
    omega

/-- Flipping a bit preserves the byte-list length. -/
theorem flipBit_length (l : List ℕ) (i k : ℕ) : (flipBit l i k).length = l.length := by
  simp [flipBit]

/-- Flipping a bit at a valid index changes the byte list. -/
theorem flipBit_ne (l : List ℕ) (i k : ℕ) (hi : i < l.length) : flipBit l i k ≠ l := by
  intro heq
  have h1 : (flipBit l i k)[i]? = some (l.getD i 0 ^^^ 2 ^ k) :=
    List.getElem?_set_self hi
  rw [heq] at h1
  have h2 : l.getD i 0 = l.getD i 0 ^^^ 2 ^ k := by
    conv_lhs => rw [List.getD_eq_getElem?_getD, h1]
    rfl
  have h5 : (0 : ℕ) = 2 ^ k := by
    calc (0 : ℕ) = l.getD i 0 ^^^ l.getD i 0 := (Nat.xor_self _).symm
    _ = l.getD i 0 ^^^ (l.getD i 0 ^^^ 2 ^ k) := by rw [← h2]
    _ = (l.getD i 0 ^^^ l.getD i 0) ^^^ 2 ^ k := (Nat.xor_assoc _ _ _).symm
    _ = 0 ^^^ 2 ^ k := by rw [Nat.xor_self]
    _ = 2 ^ k := Nat.zero_xor _
  have h6 : 0 < 2 ^ k := Nat.pow_pos (by omega)
  omega

/-- Flipping one of the low 8 bits keeps every byte below 256. -/
theorem flipBit_valid (l : List ℕ) (i k : ℕ) (hv : ∀ b ∈ l, b < 256) (hk : k < 8) :
    ∀ b ∈ flipBit l i k, b < 256 := by
  intro b hb
  rcases List.mem_or_eq_of_mem_set hb with hmem | rfl
  · exact hv b hmem
  · have h1 : l.getD i 0 < 256 := by
      rcases Decidable.em (i < l.length) with hi | hi
      · rw [List.getD_eq_getElem?_getD, List.getElem?_eq_getElem hi, Option.getD_some]
        exact hv _ (List.getElem_mem hi)
      · rw [List.getD_eq_getElem?_getD, List.getElem?_eq_none (by omega)]
        decide
    have h2 : (2 : ℕ) ^ k < 2 ^ 8 := Nat.pow_lt_pow_right (by omega) hk
    have h3 : l.getD i 0 ^^^ 2 ^ k < 2 ^ 8 :=
      Nat.xor_lt_two_pow (by simpa using h1) h2
    simpa using h3

/-- Verification of a hex-encoded wrong MAC of the right length returns
`.ok false` (no exception). -/
theorem verify_encoded_mac_false (hmacHex : List Char → List Char → List ℕ)
    (payload secret : List Char) (mac' : List ℕ)
    (hlen : mac'.length = (hmacHex secret payload).length)
    (hne : mac' ≠ hmacHex secret payload)
    (hv : ∀ b ∈ hmacHex secret payload, b < 256)
    (hv' : ∀ b ∈ mac', b < 256) :
    verifyWebhookSignature true hmacHex payload (hexEncode mac') secret = .ok false := by
  have hrm : removeFirst (("sha256=").data) (hexEncode mac') = hexEncode mac' :=
    removeFirst_sha_eq_self _ (eq_not_mem_hexEncode mac')
  have hbeq : (hexDecode (hexEncode (hmacHex secret payload)) == hexDecode (hexEncode mac'))
      = false := by
    rw [hexDecode_hexEncode _ hv, hexDecode_hexEncode _ hv']
    exact beq_eq_false_iff_ne.mpr (Ne.symm hne)
  simp [verifyWebhookSignature, hrm, timingSafeEqual,
    hexDecode_hexEncode _ hv, hexDecode_hexEncode _ hv', hlen,
    beq_eq_false_iff_ne.mp hbeq]
  exact fun hq => hne hq.symm

/-- C6: with verification enabled, a header equal to the hex HMAC digest
(with or without the `sha256=` prefix) verifies true, while a digest
computed from a different secret (producing a different MAC of the same
length) or a digest with a single bit flipped verifies false — returned,
not raised.  HMAC-SHA256 itself is kept abstract: the differing-MAC hypothesis
makes the collision-freeness assumption explicit, and byte-validity
hypotheses record that MACs are byte strings. -/
theorem verifyWebhookSignature_correctness
    (hmacHex : List Char → List Char → List ℕ) (payload secret secret' : List Char)
    (i k : ℕ)
    (hlen : (hmacHex secret' payload).length = (hmacHex secret payload).length)
    (hne : hmacHex secret' payload ≠ hmacHex secret payload)
    (hv : ∀ b ∈ hmacHex secret payload, b < 256)
    (hv' : ∀ b ∈ hmacHex secret' payload, b < 256)
    (hi : i < (hmacHex secret payload).length)
    (hk : k < 8) :
    verifyWebhookSignature true hmacHex payload
      (hexEncode (hmacHex secret payload)) secret = .ok true ∧
    verifyWebhookSignature true hmacHex payload
      ((("sha256=").data) ++ hexEncode (hmacHex secret payload)) secret = .ok true ∧
    verifyWebhookSignature true hmacHex payload
      (hexEncode (hmacHex secret' payload)) secret = .ok false ∧
    verifyWebhookSignature true hmacHex payload
      (hexEncode (flipBit (hmacHex secret payload) i k)) secret = .ok false := by
  refine ⟨?_, ?_, ?_, ?_⟩
  · have hrm := removeFirst_sha_eq_self _ (eq_not_mem_hexEncode (hmacHex secret payload))
    simp [verifyWebhookSignature, hrm, timingSafeEqual]
  · have hrm : removeFirst (("sha256=").data)
        ((("sha256=").data) ++ hexEncode (hmacHex secret payload)) =
        hexEncode (hmacHex secret payload) := removeFirst_sha_prefixStrip _
    simp only [verifyWebhookSignature, hrm]
    simp [timingSafeEqual]
  · exact verify_encoded_mac_false hmacHex payload secret _ hlen hne hv hv'
  · exact verify_encoded_mac_false hmacHex payload secret _
      (flipBit_length _ _ _) (flipBit_ne _ _ _ hi) hv (flipBit_valid _ _ _ hv hk)

/-- C6 witness: a concrete one-byte MAC function, two secrets with
differing MACs, and a bit flip at index 0, bit 0. -/
theorem verifyWebhookSignature_correctness_witness :
    verifyWebhookSignature true (fun s _ => [s.length % 256]) []
      (hexEncode [(('a') :: []).length % 256]) (('a') :: []) = .ok true ∧
    verifyWebhookSignature true (fun s _ => [s.length % 256]) []
      ((("sha256=").data) ++ hexEncode [(('a') :: []).length % 256]) (('a') :: []) =
      .ok true ∧
    verifyWebhookSignature true (fun s _ => [s.length % 256]) []
      (hexEncode [(('b') :: ('c') :: []).length % 256]) (('a') :: []) = .ok false ∧
    verifyWebhookSignature true (fun s _ => [s.length % 256]) []
      (hexEncode (flipBit [(('a') :: []).length % 256] 0 0)) (('a') :: []) = .ok false :=
  verifyWebhookSignature_correctness (fun s _ => [s.length % 256]) []
    (('a') :: []) (('b') :: ('c') :: []) 0 0
    (by decide) (by decide) (by decide) (by decide) (by decide) (by decide)

/-- C10: with verification enabled but no `x-shiprocket-signature` and no
`authorization` header on the request, the endpoint skips signature
verification entirely and proceeds to validation and processing — it does
not reject the request with 401. -/
theorem webhookRoute_missing_header_skips_verification
    (hmacHex : List Char → List Char → List ℕ) (secret : List Char)
    (stringifyBody : WebhookBody → List Char) (today : List Char)
    (dateMs : List Char → JNum) (body : WebhookBody) :
    webhookRoute true hmacHex secret stringifyBody today dateMs none none body =
      routeAfterVerify today dateMs body ∧
    webhookRoute true hmacHex secret stringifyBody today dateMs none none body ≠
      .unauthorized := by
  have h1 : webhookRoute true hmacHex secret stringifyBody today dateMs none none body =
      routeAfterVerify today dateMs body := rfl
  refine ⟨h1, ?_⟩
  rw [h1, routeAfterVerify]
  repeat' split
  all_goals simp
